import Mathlib

/- Shallow embedding of src/fit.py from the eaxy repository.

   The program fits EXSY intensity ratios over mixing times to a two-site
   exchange model using scipy.optimize.curve_fit, then derives the exchange
   ratio Kex and its propagated error and reports the results.

   Modelling choices:
   - Python/numpy double values are idealised as real numbers; numpy IEEE
     special values are modelled by the NpFloat type (a finite real payload
     plus inf, -inf and nan), with exact real arithmetic on finite values
     (rounding is not modelled and -0 is identified with 0).
   - scipy.optimize.curve_fit is external library code, modelled as an
     abstract Solver parameter returning either none (the solver raised,
     as scipy does on failure to converge) or some (popt, diagonal of pcov).
     scipy documents that when the covariance cannot be estimated it returns
     pcov filled with inf rather than raising; that outcome is expressible
     here as a solver answer carrying NpFloat.inf covariance entries.
   - Fallible control flow is modelled with Except; the FitError type
     enumerates the error taxonomy named by the specification so that the
     absence of a given rejection in the code is a statable property. -/

open Filter

/-- Lines 12-27 of fit.py: the two-site exchange model, a pure function of a
mixing time and the two rates. -/
noncomputable def calc_iratio (t_m k_12 k_21 : ℝ) : ℝ :=
  ((1 - Real.exp (-(k_12 + k_21) * t_m)) * k_12) /
    (k_21 + k_12 * Real.exp (-(k_12 + k_21) * t_m))

/-- Numpy broadcasting of calc_iratio over an array of mixing times. -/
noncomputable def calc_iratioVec (t_ms : List ℝ) (k_12 k_21 : ℝ) : List ℝ :=
  t_ms.map (fun t => calc_iratio t k_12 k_21)

/-- A numpy double value: a finite real payload or an IEEE special value. -/
inductive NpFloat where
  | fin : ℝ → NpFloat
  | inf : NpFloat
  | ninf : NpFloat
  | nan : NpFloat

/-- IEEE addition on NpFloat (exact on finite payloads). -/
noncomputable def npAdd : NpFloat → NpFloat → NpFloat
  | .nan, _ => .nan
  | _, .nan => .nan
  | .fin x, .fin y => .fin (x + y)
  | .fin _, .inf => .inf
  | .fin _, .ninf => .ninf
  | .inf, .fin _ => .inf
  | .ninf, .fin _ => .ninf
  | .inf, .inf => .inf
  | .ninf, .ninf => .ninf
  | .inf, .ninf => .nan
  | .ninf, .inf => .nan

/-- IEEE multiplication on NpFloat (exact on finite payloads). -/
noncomputable def npMul : NpFloat → NpFloat → NpFloat
  | .nan, _ => .nan
  | _, .nan => .nan
  | .fin x, .fin y => .fin (x * y)
  | .fin x, .inf => if x < 0 then .ninf else if x = 0 then .nan else .inf
  | .fin x, .ninf => if x < 0 then .inf else if x = 0 then .nan else .ninf
  | .inf, .fin y => if y < 0 then .ninf else if y = 0 then .nan else .inf
  | .ninf, .fin y => if y < 0 then .inf else if y = 0 then .nan else .ninf
  | .inf, .inf => .inf
  | .inf, .ninf => .ninf
  | .ninf, .inf => .ninf
  | .ninf, .ninf => .inf

/-- IEEE division on NpFloat; division of a nonzero finite value by zero is
a signed infinity (numpy emits a warning but no exception), 0/0 is nan. -/
noncomputable def npDiv : NpFloat → NpFloat → NpFloat
  | .nan, _ => .nan
  | _, .nan => .nan
  | .fin x, .fin y =>
      if y = 0 then (if x = 0 then .nan else if x < 0 then .ninf else .inf)
      else .fin (x / y)
  | .fin _, .inf => .fin 0
  | .fin _, .ninf => .fin 0
  | .inf, .fin y => if y < 0 then .ninf else .inf
  | .ninf, .fin y => if y < 0 then .inf else .ninf
  | .inf, .inf => .nan
  | .inf, .ninf => .nan
  | .ninf, .inf => .nan
  | .ninf, .ninf => .nan

/-- np.sqrt on NpFloat: nan on negative finite input, inf on inf. -/
noncomputable def npSqrt : NpFloat → NpFloat
  | .fin x => if x < 0 then .nan else .fin (Real.sqrt x)
  | .inf => .inf
  | .ninf => .nan
  | .nan => .nan

/-- Squaring, as written with the power operator on line 66 of fit.py. -/
noncomputable def npSq (x : NpFloat) : NpFloat := npMul x x

/-- The error taxonomy of the specification (section 7).  The embedding of
calc_rates can only ever produce convergenceFailure (propagated from the
solver); the other constructors exist so that their absence is statable. -/
inductive FitError where
  | shapeMismatch : FitError
  | convergenceFailure : FitError
  | degenerateParameter : FitError
deriving DecidableEq

/-- The tuple returned by calc_rates on line 72 of fit.py:
param and p_sigma exactly as obtained from the solver (no unit conversion),
then Kex and K_error. -/
structure FitResultNp where
  param : ℝ × ℝ
  sigma : NpFloat × NpFloat
  Kex : NpFloat
  Kerr : NpFloat

/-- Lines 54 and 63-72 of fit.py: everything calc_rates computes once the
solver has returned popt and the diagonal of pcov.
p_sigma = np.sqrt(np.diag(param_cov)) (line 54);
Kex = param[0] / param[1] (line 63, unconverted values);
K_error = Kex * np.sqrt((p_sigma[0]/param[0])**2 + (p_sigma[1]/param[1])**2)
(line 66).  The returned tuple (line 72) is param, p_sigma, Kex, K_error. -/
noncomputable def fitResultOf (param : ℝ × ℝ) (covDiag : NpFloat × NpFloat) :
    FitResultNp where
  param := param
  sigma := (npSqrt covDiag.1, npSqrt covDiag.2)
  Kex := npDiv (.fin param.1) (.fin param.2)
  Kerr := npMul (npDiv (.fin param.1) (.fin param.2))
    (npSqrt (npAdd (npSq (npDiv (npSqrt covDiag.1) (.fin param.1)))
                   (npSq (npDiv (npSqrt covDiag.2) (.fin param.2)))))

/-- Lines 57-60 of fit.py: the values computed only for the printed report,
k12 = param[0] * 1000, k21 = param[1] * 1000, k12_err = p_sigma[0] * 1000,
k21_err = p_sigma[1] * 1000. -/
noncomputable def printedValues (param : ℝ × ℝ) (covDiag : NpFloat × NpFloat) :
    (ℝ × ℝ) × (NpFloat × NpFloat) :=
  ((param.1 * 1000, param.2 * 1000),
   (npMul (npSqrt covDiag.1) (.fin 1000), npMul (npSqrt covDiag.2) (.fin 1000)))

/-- Abstract model of scipy.optimize.curve_fit: given the data arrays it
either raises (none) or returns fitted parameters and the diagonal of the
covariance matrix (possibly inf entries, as scipy documents for a singular
Jacobian). -/
def Solver : Type :=
  List ℝ → List ℝ → Option ((ℝ × ℝ) × (NpFloat × NpFloat))

/-- Lines 29-72 of fit.py: calc_rates passes times and ratios straight to
the solver (line 51, no validation of any kind precedes the call) and
unconditionally post-processes whatever the solver returns. -/
noncomputable def calc_rates (solver : Solver) (times ratios : List ℝ) :
    Except FitError FitResultNp :=
  match solver times ratios with
  | none => Except.error FitError.convergenceFailure
  | some pc => Except.ok (fitResultOf pc.1 pc.2)

/-- Column j of a loadtxt-style rectangular array. -/
def colOf (data : List (List ℝ)) (j : ℕ) : List ℝ :=
  data.map (fun row => row.getD j 0)

/-- Number of columns of a loadtxt-style array (data.shape[1]). -/
def ncols (data : List (List ℝ)) : ℕ := (data.headD []).length

/-- Lines 110-118 of fit.py: load_data splits the array into times
(column 0), ratios (column 1), and errors (column 2 when the array has more
than 2 columns, otherwise np.zeros_like(ratios)). -/
def load_data (data : List (List ℝ)) : List ℝ × List ℝ × List ℝ :=
  let times := colOf data 0
  let ratios := colOf data 1
  let errors :=
    if 2 < ncols data then colOf data 2 else List.replicate ratios.length 0
  (times, ratios, errors)

/-- Lines 136-137 of fit.py: main unpacks times, ratios, errors from
load_data but passes only times and ratios to calc_rates; the errors series
goes only to the plotting call on line 139. -/
noncomputable def mainFit (solver : Solver) (times ratios errors : List ℝ) :
    Except FitError FitResultNp :=
  calc_rates solver times ratios

/- ------------------------------------------------------------------ -/
/- Helper lemmas (shared between claim proofs). -/

theorem npAdd_fin (x y : ℝ) : npAdd (.fin x) (.fin y) = .fin (x + y) := rfl

theorem npMul_fin (x y : ℝ) : npMul (.fin x) (.fin y) = .fin (x * y) := rfl

theorem npSq_fin (x : ℝ) : npSq (.fin x) = .fin (x * x) := rfl

theorem npDiv_fin (x y : ℝ) (hy : y ≠ 0) :
    npDiv (.fin x) (.fin y) = .fin (x / y) := by
  simp [npDiv, hy]

theorem npSqrt_fin (x : ℝ) (hx : 0 ≤ x) :
    npSqrt (.fin x) = .fin (Real.sqrt x) := by
  simp [npSqrt, not_lt.mpr hx]

theorem calc_rates_none {sol : Solver} {ts rs : List ℝ}
    (h : sol ts rs = none) :
    calc_rates sol ts rs = Except.error FitError.convergenceFailure := by
  simp [calc_rates, h]

theorem calc_rates_some {sol : Solver} {ts rs : List ℝ}
    {pc : (ℝ × ℝ) × (NpFloat × NpFloat)} (h : sol ts rs = some pc) :
    calc_rates sol ts rs = Except.ok (fitResultOf pc.1 pc.2) := by
  simp [calc_rates, h]

theorem exchange_denom_pos (k12 k21 t : ℝ) (h12 : 0 < k12) (h21 : 0 < k21) :
    0 < k21 + k12 * Real.exp (-(k12 + k21) * t) := by
  have := Real.exp_pos (-(k12 + k21) * t)
  nlinarith

/- ------------------------------------------------------------------ -/
/- Claim theorems. -/

/-- Claim C2: the Exchange Model returns exactly
((1 - exp(-(k12+k21) t)) k12) / (k21 + k12 exp(-(k12+k21) t)), both on a
single mixing time and element-wise on a sequence of mixing times with a
result of matching shape; it is a pure total function of its inputs. -/
theorem C2_exchange_model_formula (t : ℝ) (ts : List ℝ) (k12 k21 : ℝ) :
    calc_iratio t k12 k21 =
      ((1 - Real.exp (-(k12 + k21) * t)) * k12) /
        (k21 + k12 * Real.exp (-(k12 + k21) * t)) ∧
    calc_iratioVec ts k12 k21 =
      ts.map (fun u =>
        ((1 - Real.exp (-(k12 + k21) * u)) * k12) /
          (k21 + k12 * Real.exp (-(k12 + k21) * u))) ∧
    (calc_iratioVec ts k12 k21).length = ts.length := by
  refine ⟨rfl, rfl, ?_⟩
  simp [calc_iratioVec]

/-- Claim C9: the per-point error series never influences the fit: main
passes only times and ratios to calc_rates, so two invocations differing
only in the error series produce identical fit results. -/
theorem C9_error_series_noninterference (sol : Solver) (ts rs e1 e2 : List ℝ) :
    mainFit sol ts rs e1 = mainFit sol ts rs e2 := rfl

/-- Claim C5 (amended): the tuple calc_rates returns carries the raw fitted
parameters and standard errors, with no unit conversion; the values
multiplied by 1000 are computed only for the printed report. -/
theorem C5_returned_unconverted (p : ℝ × ℝ) (c : NpFloat × NpFloat) :
    (fitResultOf p c).param = p ∧
    (fitResultOf p c).sigma = (npSqrt c.1, npSqrt c.2) ∧
    (printedValues p c).1.1 = (fitResultOf p c).param.1 * 1000 ∧
    (printedValues p c).1.2 = (fitResultOf p c).param.2 * 1000 ∧
    (printedValues p c).2.1 = npMul (fitResultOf p c).sigma.1 (.fin 1000) ∧
    (printedValues p c).2.2 = npMul (fitResultOf p c).sigma.2 (.fin 1000) :=
  ⟨rfl, rfl, rfl, rfl, rfl, rfl⟩

/-- Claim C5 counterexample: the claim says the returned FitResult carries
the fitted values multiplied by 1000.  With fitted parameters (2, 1) the
returned first parameter is 2, not 2 * 1000. -/
theorem C5_counterexample :
    (fitResultOf (2, 1) (NpFloat.fin 1, NpFloat.fin 1)).param.1 = 2 ∧
    (2 : ℝ) ≠ 2 * 1000 :=
  ⟨rfl, by norm_num⟩

/-- Claim C3 (amended): calc_rates performs no shape validation.  Its result
is determined entirely by the solver answer on the given, unvalidated,
sequences, and it never produces a ShapeMismatch error: length problems can
only surface from inside the solver. -/
theorem C3_no_shape_validation (sol1 sol2 : Solver) (ts rs : List ℝ)
    (h : sol1 ts rs = sol2 ts rs) :
    calc_rates sol1 ts rs = calc_rates sol2 ts rs ∧
    calc_rates sol1 ts rs ≠ Except.error FitError.shapeMismatch := by
  constructor
  · simp [calc_rates, h]
  · cases hs : sol1 ts rs with
    | none => rw [calc_rates_none hs]; simp
    | some pc =>
        rw [calc_rates_some hs]
        simp

/-- Claim C3 witness: a concrete mismatched-length call (1 time, 2 ratios)
is not rejected with ShapeMismatch. -/
theorem C3_witness :
    calc_rates (fun _ _ => none) [0] [0, 1] ≠
      Except.error FitError.shapeMismatch :=
  (C3_no_shape_validation (fun _ _ => none) (fun _ _ => none) [0] [0, 1] rfl).2

/-- Claim C3 counterexample: the claim says mismatched-length input is
rejected with ShapeMismatch before the solver is invoked.  With times of
length 3 and ratios of length 2, and a solver that answers precisely because
the lengths differ, calc_rates returns that solver's fit result: the solver
was invoked and nothing was rejected. -/
theorem C3_counterexample :
    calc_rates
      (fun ts rs =>
        if ts.length = rs.length then none
        else some ((5, 7), (NpFloat.fin 0, NpFloat.fin 0)))
      [0, 1, 2] [10, 20] =
      Except.ok (fitResultOf (5, 7) (NpFloat.fin 0, NpFloat.fin 0)) := rfl

/-- Claim C4 (amended): when the fitted k21 is zero and k12 is positive, the
exchange-ratio computation silently evaluates to +Inf under numpy float
division; calc_rates never produces a DegenerateParameter error. -/
theorem C4_kex_silent_inf :
    (∀ (p1 : ℝ) (c : NpFloat × NpFloat), 0 < p1 →
      (fitResultOf (p1, 0) c).Kex = NpFloat.inf) ∧
    (∀ (sol : Solver) (ts rs : List ℝ),
      calc_rates sol ts rs ≠ Except.error FitError.degenerateParameter) := by
  constructor
  · intro p1 c hp1
    simp [fitResultOf, npDiv, ne_of_gt hp1, not_lt.mpr hp1.le]
  · intro sol ts rs
    cases hs : sol ts rs with
    | none => rw [calc_rates_none hs]; simp
    | some pc => rw [calc_rates_some hs]; simp

/-- Claim C4 witness: concrete instance of the amended claim at fitted
parameters (1, 0). -/
theorem C4_witness :
    (fitResultOf (1, 0) (NpFloat.fin 2, NpFloat.fin 3)).Kex = NpFloat.inf :=
  C4_kex_silent_inf.1 1 (NpFloat.fin 2, NpFloat.fin 3) one_pos

/-- Claim C4 counterexample: the claim says a fit with k21 = 0 must fail with
a DegenerateParameter error and never emit Inf.  A solver outcome with fitted
parameters (1, 0) makes calc_rates return a successful result whose Kex field
is Inf. -/
theorem C4_counterexample :
    calc_rates (fun _ _ => some ((1, 0), (NpFloat.fin 1, NpFloat.fin 1)))
      [0, 1] [0, 1] =
      Except.ok (fitResultOf (1, 0) (NpFloat.fin 1, NpFloat.fin 1)) ∧
    (fitResultOf (1, 0) (NpFloat.fin 1, NpFloat.fin 1)).Kex = NpFloat.inf := by
  refine ⟨rfl, ?_⟩
  norm_num [fitResultOf, npDiv]

/-- Claim C1: for every successful fit, Kex is the quotient of the raw
(pre-conversion) fitted parameters, and the propagated error is
Kex * sqrt((sigma1/p1)^2 + (sigma2/p2)^2) computed from the raw fitted
values and the standard errors sqrt of the covariance diagonal. -/
theorem C1_kex_consistency (p1 p2 c1 c2 : ℝ) (hp1 : p1 ≠ 0) (hp2 : p2 ≠ 0)
    (hc1 : 0 ≤ c1) (hc2 : 0 ≤ c2) :
    (fitResultOf (p1, p2) (NpFloat.fin c1, NpFloat.fin c2)).Kex =
      NpFloat.fin (p1 / p2) ∧
    (fitResultOf (p1, p2) (NpFloat.fin c1, NpFloat.fin c2)).Kerr =
      NpFloat.fin ((p1 / p2) *
        Real.sqrt ((Real.sqrt c1 / p1) ^ 2 + (Real.sqrt c2 / p2) ^ 2)) := by
  have hs1 := npSqrt_fin c1 hc1
  have hs2 := npSqrt_fin c2 hc2
  have e1 : npDiv (npSqrt (.fin c1)) (.fin p1) = .fin (Real.sqrt c1 / p1) := by
    rw [hs1, npDiv_fin _ _ hp1]
  have e2 : npDiv (npSqrt (.fin c2)) (.fin p2) = .fin (Real.sqrt c2 / p2) := by
    rw [hs2, npDiv_fin _ _ hp2]
  have hnn : 0 ≤ Real.sqrt c1 / p1 * (Real.sqrt c1 / p1) +
      Real.sqrt c2 / p2 * (Real.sqrt c2 / p2) :=
    add_nonneg (mul_self_nonneg _) (mul_self_nonneg _)
  constructor
  · show npDiv (.fin p1) (.fin p2) = _
    rw [npDiv_fin _ _ hp2]
  · show npMul (npDiv (.fin p1) (.fin p2)) _ = _
    rw [e1, e2, npSq_fin, npSq_fin, npAdd_fin, npSqrt_fin _ hnn,
      npDiv_fin _ _ hp2, npMul_fin, pow_two, pow_two]

/-- Claim C1 witness: at fitted parameters (3, 4) with covariance diagonal
(81, 256) the exchange ratio is 3/4. -/
theorem C1_witness :
    (fitResultOf (3, 4) (NpFloat.fin 81, NpFloat.fin 256)).Kex =
      NpFloat.fin ((3 : ℝ) / 4) :=
  (C1_kex_consistency 3 4 81 256 (by norm_num) (by norm_num) (by norm_num)
    (by norm_num)).1

/-- Claim C6 (amended): when the solver raises (fails to converge), the error
propagates and no fit result is produced; but when the solver succeeds while
returning an Inf-filled covariance, as scipy documents for a singular
Jacobian, calc_rates silently returns a fit result whose standard errors are
Inf: it does not fail. -/
theorem C6_covariance_not_guarded (sol : Solver) (ts rs : List ℝ) :
    (sol ts rs = none →
      calc_rates sol ts rs = Except.error FitError.convergenceFailure) ∧
    (∀ p : ℝ × ℝ, sol ts rs = some (p, (NpFloat.inf, NpFloat.inf)) →
      calc_rates sol ts rs =
        Except.ok (fitResultOf p (NpFloat.inf, NpFloat.inf)) ∧
      (fitResultOf p (NpFloat.inf, NpFloat.inf)).sigma =
        (NpFloat.inf, NpFloat.inf)) := by
  refine ⟨fun h => calc_rates_none h, fun p h => ⟨calc_rates_some h, rfl⟩⟩

/-- Claim C6 witness: concrete solver raising on concrete data. -/
theorem C6_witness :
    calc_rates (fun _ _ => none) [10, 20] [1, 2] =
      Except.error FitError.convergenceFailure :=
  (C6_covariance_not_guarded (fun _ _ => none) [10, 20] [1, 2]).1 rfl

/-- Claim C6 counterexample: the claim says that when the covariance cannot
be estimated the estimator fails and no fit result is produced.  A solver
outcome with an Inf-filled covariance diagonal (scipy's documented behaviour
for a singular Jacobian) makes calc_rates return a successful result whose
standard errors and Kex error are Inf. -/
theorem C6_counterexample :
    calc_rates (fun _ _ => some ((1, 2), (NpFloat.inf, NpFloat.inf)))
      [10, 20] [1, 2] =
      Except.ok (fitResultOf (1, 2) (NpFloat.inf, NpFloat.inf)) ∧
    (fitResultOf (1, 2) (NpFloat.inf, NpFloat.inf)).sigma.1 = NpFloat.inf ∧
    (fitResultOf (1, 2) (NpFloat.inf, NpFloat.inf)).Kerr = NpFloat.inf := by
  refine ⟨rfl, rfl, ?_⟩
  norm_num [fitResultOf, npDiv, npSqrt, npSq, npMul, npAdd]

/-- Claim C7 counterexample: the claim says the Exchange Model value lies in
[0, k12/(k12+k21)] and approaches k12/(k12+k21).  At t_m = 1 with
k12 = k21 = 1 the bound k12/(k12+k21) is 1/(1+1), yet the model value
(1 - exp(-2))/(1 + exp(-2)) exceeds it.  The true supremum is k12/k21. -/
theorem C7_counterexample : (1 : ℝ) / (1 + 1) < calc_iratio 1 1 1 := by
  have hexp2 : Real.exp 2 = Real.exp 1 * Real.exp 1 := by
    rw [← Real.exp_add]; norm_num
  have h3 : (3 : ℝ) < Real.exp 2 := by
    have h1 := Real.exp_one_gt_d9
    nlinarith
  have hE : Real.exp (-2) < 1 / 3 := by
    rw [Real.exp_neg, inv_eq_one_div,
      div_lt_div_iff₀ (Real.exp_pos 2) (by norm_num : (0 : ℝ) < 3)]
    nlinarith
  have hEpos : 0 < Real.exp (-2) := Real.exp_pos _
  have hgoal : calc_iratio 1 1 1 =
      (1 - Real.exp (-2)) / (1 + Real.exp (-2)) := by
    norm_num [calc_iratio]
  rw [hgoal, div_lt_div_iff₀ (by norm_num : (0 : ℝ) < 1 + 1) (by positivity)]
  nlinarith

/-- Claim C7 (amended): for all t_m at least 0 and positive rates, the
Exchange Model value lies in [0, k12/k21], is monotonically non-decreasing
in t_m, is exactly 0 at t_m = 0, and tends to k12/k21 as t_m tends to
infinity. -/
theorem C7_model_shape (k12 k21 : ℝ) (h12 : 0 < k12) (h21 : 0 < k21) :
    (∀ t, 0 ≤ t →
      0 ≤ calc_iratio t k12 k21 ∧ calc_iratio t k12 k21 ≤ k12 / k21) ∧
    (∀ t1 t2, 0 ≤ t1 → t1 ≤ t2 →
      calc_iratio t1 k12 k21 ≤ calc_iratio t2 k12 k21) ∧
    calc_iratio 0 k12 k21 = 0 ∧
    Tendsto (fun t => calc_iratio t k12 k21) atTop (nhds (k12 / k21)) := by
  have hsum : 0 < k12 + k21 := by linarith
  refine ⟨?_, ?_, ?_, ?_⟩
  · intro t ht
    have hE : 0 < Real.exp (-(k12 + k21) * t) := Real.exp_pos _
    have hE1 : Real.exp (-(k12 + k21) * t) ≤ 1 := by
      have h0 : -(k12 + k21) * t ≤ 0 := by nlinarith
      have := Real.exp_le_exp.mpr h0
      simpa using this
    have hden := exchange_denom_pos k12 k21 t h12 h21
    constructor
    · unfold calc_iratio
      apply div_nonneg _ hden.le
      nlinarith
    · unfold calc_iratio
      rw [div_le_div_iff₀ hden h21]
      nlinarith [mul_pos hE (mul_pos h12 hsum)]
  · intro t1 t2 ht1 hle
    have hE1 : 0 < Real.exp (-(k12 + k21) * t1) := Real.exp_pos _
    have hE2 : 0 < Real.exp (-(k12 + k21) * t2) := Real.exp_pos _
    have hEle : Real.exp (-(k12 + k21) * t2) ≤ Real.exp (-(k12 + k21) * t1) :=
      Real.exp_le_exp.mpr (by nlinarith)
    have hd1 := exchange_denom_pos k12 k21 t1 h12 h21
    have hd2 := exchange_denom_pos k12 k21 t2 h12 h21
    unfold calc_iratio
    rw [div_le_div_iff₀ hd1 hd2]
    nlinarith [mul_nonneg (mul_nonneg h12.le hsum.le) (sub_nonneg.mpr hEle)]
  · simp [calc_iratio]
  · have hlin : Tendsto (fun t : ℝ => (k12 + k21) * t) atTop atTop :=
      Tendsto.const_mul_atTop hsum tendsto_id
    have hexp : Tendsto (fun t : ℝ => Real.exp (-((k12 + k21) * t)))
        atTop (nhds 0) := Real.tendsto_exp_neg_atTop_nhds_zero.comp hlin
    have hne : k21 + k12 * 0 ≠ 0 := by
      simpa using ne_of_gt h21
    have hnum : Tendsto (fun t : ℝ => (1 - Real.exp (-((k12 + k21) * t))) * k12)
        atTop (nhds ((1 - 0) * k12)) :=
      (tendsto_const_nhds.sub hexp).mul tendsto_const_nhds
    have hden2 : Tendsto (fun t : ℝ => k21 + k12 * Real.exp (-((k12 + k21) * t)))
        atTop (nhds (k21 + k12 * 0)) :=
      tendsto_const_nhds.add (tendsto_const_nhds.mul hexp)
    have hdiv := hnum.div hden2 hne
    have hval : (1 - 0) * k12 / (k21 + k12 * 0) = k12 / k21 := by norm_num
    rw [← hval]
    exact hdiv.congr fun t => by
      show _ = calc_iratio t k12 k21
      unfold calc_iratio
      simp only [Pi.div_apply]
      ring_nf

/-- Claim C7 witness: at k12 = k21 = 1 the model is exactly 0 at t_m = 0. -/
theorem C7_witness : calc_iratio 0 1 1 = 0 :=
  (C7_model_shape 1 1 one_pos one_pos).2.2.1

/-- Claim C10: when the loaded array has exactly 2 columns, load_data
returns a zero error series of the same length as the ratio series, and all
three returned sequences have length equal to the number of rows. -/
theorem C10_two_column_zero_errors (data : List (List ℝ))
    (h : ∀ row ∈ data, row.length = 2) :
    (load_data data).2.2 = List.replicate data.length 0 ∧
    (load_data data).1.length = data.length ∧
    (load_data data).2.1.length = data.length ∧
    (load_data data).2.2.length = data.length := by
  have hnc : ¬ 2 < ncols data := by
    cases data with
    | nil => simp [ncols]
    | cons r t =>
        have hr := h r (List.mem_cons_self r t)
        simp [ncols, hr]
  refine ⟨?_, ?_, ?_, ?_⟩ <;> simp [load_data, colOf, hnc]

/-- Claim C10 witness: a concrete two-column array yields a zero error
series of length 2. -/
theorem C10_witness :
    (load_data [[1, 2], [3, 4]]).2.2 = List.replicate 2 0 :=
  (C10_two_column_zero_errors [[1, 2], [3, 4]]
    (by intro row hrow; simp at hrow; rcases hrow with rfl | rfl <;> rfl)).1
